import Mathlib

/-!
Verification of the reclaim-reactnative-sdk proof-verification pipeline and
session state machine, as a shallow embedding in Lean.

Source files embedded:
- src/src/Reclaim.ts (verifyProof, ReclaimProofRequest, startSession)
- src/src/utils/errors.ts (error classes and the proofUtils module:
  getWitnessesForClaim, recoverSignersOfSignedClaim, assertValidSignedClaim,
  getShortenedUrl, createLinkWithTemplateData)
- src/unnamed/part_000 (validationUtils: validateFunctionParams, validateURL,
  validateSignature, validateContext)
- src/src/utils/types.ts (data shapes, SessionStatus)

External collaborators that are not part of this repository (the ethers
crypto library, the canonicalize library, the beacon smart contract, the
witness module, network fetches, JSON and URL facilities of the JS runtime)
are modelled as explicit environment parameters: pure functions supplied to
the embedded definitions.  Modules of this repository that are not under
src/ are modelled from the spec and marked as such in their doc comments.
-/

namespace ReclaimSDK

/-- Error values thrown by the SDK.  The source creates one nominal Error
subclass per failure site (src/src/utils/errors.ts); each carries a message
string.  We collapse them into one inductive, keeping one constructor per
error class that the embedded code paths can raise. -/
inductive RError where
  | signatureNotFound (msg : String)
  | proofNotVerified (msg : String)
  | invalidParam (msg : String)
  | invalidSignature (msg : String)
  | getAppCallbackUrlError (msg : String)
  | getStatusUrlError (msg : String)
  | providerFailed (msg : String)
  | proofSubmissionFailed (msg : String)
  | proofNotFound (msg : String)
  | updateSessionError (msg : String)
  | sessionNotStarted (msg : String)
  | sessionTimedOut (msg : String)
  | genericError (msg : String)
deriving DecidableEq, Repr

/-- The message attached to an error value. -/
def RError.message : RError → String
  | .signatureNotFound m => m
  | .proofNotVerified m => m
  | .invalidParam m => m
  | .invalidSignature m => m
  | .getAppCallbackUrlError m => m
  | .getStatusUrlError m => m
  | .providerFailed m => m
  | .proofSubmissionFailed m => m
  | .proofNotFound m => m
  | .updateSessionError m => m
  | .sessionNotStarted m => m
  | .sessionTimedOut m => m
  | .genericError m => m

/-- WitnessEntry (src/src/utils/types.ts / interfaces): an address plus a url.
The url value "manual-verify" is a sentinel. -/
structure WitnessEntry where
  id : String
  url : String
deriving DecidableEq, Repr

/-- CompleteClaimData (src/src/utils/types.ts): the claim payload carried by a
proof.  The parameters field is the provider-defined parameter blob as it
appears in the proof (a JSON-encoded string, semantically opaque here). -/
structure CompleteClaimData where
  provider : String
  parameters : String
  context : String
  owner : String
  timestampS : Nat
  epoch : Nat
  identifier : String
deriving DecidableEq, Repr

/-- ClaimInfo (src/src/utils/types.ts): the triple hashed into a claim
identifier. -/
structure ClaimInfo where
  provider : String
  parameters : String
  context : String
deriving DecidableEq, Repr

/-- Proof (interfaces): externally produced, untrusted until verified.
Signatures are kept in their transport representation; ethers.utils.arrayify
is the identity on this abstract representation. -/
structure Proof where
  identifier : String
  claimData : CompleteClaimData
  signatures : List String
  witnesses : List WitnessEntry
deriving DecidableEq, Repr

/-- SignedClaim (src/src/utils/types.ts): claim data plus witness
signatures. -/
structure SignedClaim where
  claim : CompleteClaimData
  signatures : List String
deriving DecidableEq, Repr

/-- Character-level global replacement of a literal non-empty pattern:
every non-overlapping occurrence, scanned left to right, is replaced.  The
fuel argument makes the recursion structural; one unit of fuel per consumed
character suffices. -/
def replaceAllChars (find repl : List Char) : Nat → List Char → List Char
  | _, [] => []
  | 0, l => l
  | fuel + 1, c :: rest =>
    if find ≠ [] ∧ find.isPrefixOf (c :: rest) then
      repl ++ replaceAllChars find repl fuel ((c :: rest).drop find.length)
    else
      c :: replaceAllChars find repl fuel rest

/-- escapeRegExp + replaceAll (src/src/utils.ts lines 424-430): global
replacement of a literal substring (the escaped global regex of the
source), implemented over the character list. -/
def replaceAll (str find repl : String) : String :=
  String.mk (replaceAllChars find.data repl.data (str.data.length + 1) str.data)

/-- Models the JS String.prototype.toLowerCase used by the source on hex
addresses: chars A-Z are mapped to a-z (Char.toLower is the per-char ASCII
lowering; address strings are ASCII). -/
def jsToLowerCase (s : String) : String :=
  String.mk (s.data.map Char.toLower)

/-- Whether a string contains an ASCII uppercase letter (A-Z). -/
def containsUpper (s : String) : Bool :=
  s.data.any (fun c => decide (65 ≤ c.toNat ∧ c.toNat ≤ 90))

/-- Models the JS String.prototype.trim used by validateFunctionParams:
whitespace is stripped from both ends. -/
def jsTrim (s : String) : String :=
  String.mk (((s.data.dropWhile Char.isWhitespace).reverse.dropWhile
    Char.isWhitespace).reverse)

/-- Environment abstracting the ethers crypto library and the claim-hashing
helpers that the verification pipeline calls.  All are pure functions
(spec section 5: hash, sign, recover are synchronous pure functions).

- verifyMessage msg sig: the address recovered by
  ethers.utils.verifyMessage (personal_sign recovery); recovery of
  well-formed signatures is total.
- createSignDataForClaim: Modelled from the spec (section 4.3 payload
  convention (c)): the witness module (src/witness, not under src/) renders
  CompleteClaimData into the string that witnesses sign.
- getIdentifierFromClaimInfo: Modelled from the spec (section 4.2): the
  witness module derives a 256-bit identifier by canonicalizing and hashing
  the ClaimInfo triple; a pure function of the triple.
- canonicalizeParams: the composite JSON.parse (canonicalize parameters)
  applied by verifyProof to the parameters blob before hashing
  (canonicalize is an external library).
- canonicalizePair providerId timestamp: canonicalize of the two-field
  record used for the application-authorization signature; none models the
  undefined return of the canonicalize library.
- keccak256Utf8: keccak256 of the utf8 bytes of a string, as a hex string.
- getAddress: ethers.utils.getAddress checksum normalization; none models
  the throw on a malformed address. -/
structure CryptoEnv where
  verifyMessage : String → String → String
  createSignDataForClaim : CompleteClaimData → String
  getIdentifierFromClaimInfo : ClaimInfo → String
  canonicalizeParams : String → String
  canonicalizePair : String → String → Option String
  keccak256Utf8 : String → String
  getAddress : String → Option String

/-- Environment abstracting the beacon smart contract (src/smart-contract,
not under src/) and the witness-list selection rule.

- beacon: makeBeacon() result; none models no beacon configured.  A beacon
  maps an epoch to its state, which per the spec (section 6,
  getWitnessListForEpoch) is the witness list for that epoch.
- fetchWitnessListForClaim: Modelled from the spec (section 4.4): the
  selection rule applied to the beacon state for (identifier, timestampS)
  is external and treated as a black box returning a witness list. -/
structure BeaconEnv where
  beacon : Option (Nat → List WitnessEntry)
  fetchWitnessListForClaim : List WitnessEntry → String → Nat → List WitnessEntry

/-- getWitnessesForClaim (src/src/utils/errors.ts lines 120-134, the
proofUtils module): asks the beacon for the epoch state, applies the
selection rule, and lower-cases every witness id.  Throws when no beacon is
available. -/
def getWitnessesForClaim (b : BeaconEnv) (epoch : Nat) (identifier : String)
    (timestampS : Nat) : Except RError (List String) :=
  match b.beacon with
  | none => .error (.genericError "No beacon available")
  | some getState =>
    let state := getState epoch
    let witnessList := b.fetchWitnessListForClaim state identifier timestampS
    .ok (witnessList.map (fun w => jsToLowerCase w.id))

/-- recoverSignersOfSignedClaim (src/src/utils/errors.ts lines 142-152):
recovers the signer address of each signature over the sign-data of the
claim and lower-cases it. -/
def recoverSignersOfSignedClaim (c : CryptoEnv) (sc : SignedClaim) : List String :=
  let dataStr := c.createSignDataForClaim sc.claim
  sc.signatures.map (fun signature => jsToLowerCase (c.verifyMessage dataStr signature))

/-- assertValidSignedClaim (src/src/utils/errors.ts lines 160-181): builds
the JS Set of expected witness addresses (insertion order, duplicates
dropped: List.dedup), deletes every recovered signer from it, and fails
naming the remaining (missing) addresses if any are left. -/
def assertValidSignedClaim (c : CryptoEnv) (claim : SignedClaim)
    (expectedWitnessAddresses : List String) : Except RError Unit :=
  let witnessAddresses := recoverSignersOfSignedClaim c claim
  let witnessesNotSeen :=
    witnessAddresses.foldl (fun s w => if w ∈ s then s.erase w else s)
      expectedWitnessAddresses.dedup
  if witnessesNotSeen.length > 0 then
    .error (.proofNotVerified
      ("Missing signatures from " ++ String.intercalate ", " witnessesNotSeen))
  else
    .ok ()

/-- The witness-resolution step of verifyProof (src/src/Reclaim.ts lines
74-84): if the witnesses array is non-empty and its first entry has url
"manual-verify", the resolved set is that single id, used as given;
otherwise the beacon is consulted. -/
def resolveWitnesses (b : BeaconEnv) (proof : Proof) : Except RError (List String) :=
  match proof.witnesses with
  | w :: _ =>
    if w.url == "manual-verify" then
      .ok [w.id]
    else
      getWitnessesForClaim b proof.claimData.epoch proof.identifier proof.claimData.timestampS
  | [] =>
    getWitnessesForClaim b proof.claimData.epoch proof.identifier proof.claimData.timestampS

/-- The catch handler of the try block of verifyProof (src/src/Reclaim.ts
lines 109-114): any error thrown inside the try block is logged and turned
into a false return. -/
def catchToFalse (t : Except RError Bool) : Except RError Bool :=
  match t with
  | .ok b => .ok b
  | .error _ => .ok false

/-- The identifier recomputed by verifyProof from the claim data
(src/src/Reclaim.ts lines 86-92). -/
def calculatedIdentifier (c : CryptoEnv) (proof : Proof) : String :=
  c.getIdentifierFromClaimInfo
    { parameters := c.canonicalizeParams proof.claimData.parameters
    , provider := proof.claimData.provider
    , context := proof.claimData.context }

/-- verifyProof on a single proof (src/src/Reclaim.ts lines 67-117).  The
empty-signatures check precedes the try block, so SignatureNotFoundError
escapes as an exception (.error); every failure inside the try block is
caught and converted to a false return (.ok false). -/
def verifyProofSingle (c : CryptoEnv) (b : BeaconEnv) (proof : Proof) :
    Except RError Bool :=
  if proof.signatures.isEmpty then
    .error (.signatureNotFound "No signatures")
  else
    catchToFalse (do
      let witnesses ← resolveWitnesses b proof
      let calculated := calculatedIdentifier c proof
      let identifier := replaceAll proof.identifier "\"" ""
      if calculated ≠ identifier then
        throw (.proofNotVerified "Identifier Mismatch")
      let signedClaim : SignedClaim :=
        { claim := proof.claimData, signatures := proof.signatures }
      assertValidSignedClaim c signedClaim witnesses
      pure true)

/-- verifyProof on an array of proofs (src/src/Reclaim.ts lines 57-65):
verify each in order, returning false at the first unverified proof;
an exception from a single verification propagates. -/
def verifyProofList (c : CryptoEnv) (b : BeaconEnv) : List Proof → Except RError Bool
  | [] => .ok true
  | p :: ps => do
    let isVerified ← verifyProofSingle c b p
    if !isVerified then
      pure false
    else
      verifyProofList c b ps

/-- ProofRequestOptions (src/src/utils/types.ts plus the useAppClip flag
read at runtime by getRequestUrl). -/
structure ProofRequestOptions where
  log : Option Bool
  acceptAiProviders : Option Bool
  useAppClip : Option Bool
deriving DecidableEq, Repr

/-- Context (interfaces): the context attached to a request. -/
structure Context where
  contextAddress : String
  contextMessage : String
deriving DecidableEq, Repr

/-- Modelled from the spec (section 6, status URL / callback URL: fixed base
URLs concatenated with the session id).  The constants module
(src/src/utils/constants) is not under src/; the concrete base strings are
placeholders, and no theorem below depends on their values. -/
def DEFAULT_RECLAIM_CALLBACK_URL : String :=
  "https://backend.example/api/sdk/callback?callbackId="

/-- Modelled from the spec (section 6): base of the status URL exposed to
callers; placeholder value, see DEFAULT_RECLAIM_CALLBACK_URL. -/
def DEFAULT_RECLAIM_STATUS_URL : String :=
  "https://backend.example/api/sdk/session/"

/-- Modelled from the spec (section 6): base of the share link produced by
createLinkWithTemplateData; placeholder value. -/
def RECLAIM_SHARE_URL : String :=
  "https://share.example/verifier?template="

/-- The serializable state of a ReclaimProofRequest instance
(src/src/Reclaim.ts lines 142-160): exactly the fields written by
toJsonString.  The non-serialized runtime fields (the intervals registry and
lastFailureTime) live in SessionMutState below. -/
structure ReclaimProofRequest where
  applicationId : String
  providerId : String
  sessionId : String
  context : Context
  parameters : List (String × String)
  appCallbackUrl : Option String
  signature : Option String
  redirectUrl : Option String
  timeStamp : String
  options : Option ProofRequestOptions
  sdkVersion : String
deriving DecidableEq, Repr

/-- The record JSON.stringify-ed by toJsonString and destructured by
fromJsonString (ProofPropertiesJSON).  JSON.stringify omits undefined
fields and JSON.parse restores them as undefined, so the round trip
through the JSON string is the identity on this record; the embedding
therefore passes the record itself across the boundary. -/
structure ProofPropertiesJSON where
  applicationId : String
  providerId : String
  sessionId : String
  context : Context
  parameters : List (String × String)
  appCallbackUrl : Option String
  signature : Option String
  redirectUrl : Option String
  timeStamp : String
  options : Option ProofRequestOptions
  sdkVersion : String
deriving DecidableEq, Repr

/-- Environment for validation facilities of the JS runtime: the URL
constructor used by validateURL (src/unnamed/part_000): true means
new URL(u) succeeds. -/
structure ValidationEnv where
  isValidURL : String → Bool

/-- validateFunctionParams for one string-typed parameter
(src/unnamed/part_000 lines 15-45): the input must be present (not
null/undefined), a string, and non-empty after trim.  none models a missing
input. -/
def validStringParam (input : Option String) : Bool :=
  match input with
  | none => false
  | some s => !(jsTrim s == "")

/-- validateURL (src/unnamed/part_000 lines 53-67): new URL(url) must
succeed. -/
def validateURL (v : ValidationEnv) (url : String) : Except RError Unit :=
  if v.isValidURL url then .ok () else
    .error (.invalidParam ("Invalid URL format " ++ url ++ " passed."))

/-- validateContext (src/unnamed/part_000): contextAddress and
contextMessage must be truthy (non-empty) and pass the string parameter
validation (non-empty after trim). -/
def validateContext (ctx : Context) : Except RError Unit :=
  if ctx.contextAddress == "" then
    .error (.invalidParam "The provided context address in context is not valid")
  else if ctx.contextMessage == "" then
    .error (.invalidParam "The provided context message in context is not valid")
  else if !(validStringParam (some ctx.contextAddress)) then
    .error (.invalidParam "contextAddress passed to validateContext must not be an empty string.")
  else if !(validStringParam (some ctx.contextMessage)) then
    .error (.invalidParam "contextMessage passed to validateContext must not be an empty string.")
  else
    .ok ()

/-- Modelled from the spec (section 4.6): validateParameters (the
validationUtils function imported by Reclaim.ts but outside src/) checks
that the parameters value is a map with string values; on the typed
embedding (a list of string pairs) this always holds. -/
def validateParameters (_params : List (String × String)) : Except RError Unit :=
  .ok ()

/-- The conditional URL validation of fromJsonString: a truthy redirectUrl
or appCallbackUrl value is validated, an absent or empty one is skipped
(JS: if (url) validateURL(url)). -/
def checkOptionalURL (v : ValidationEnv) : Option String → Except RError Unit
  | some u => if u == "" then .ok () else validateURL v u
  | none => .ok ()

/-- getAppCallbackUrl (src/src/Reclaim.ts lines 363-380): requires a valid
session id, then returns the custom callback URL if one is set (JS
truthiness: an empty string falls back) or the default callback URL
concatenated with the session id. -/
def getAppCallbackUrl (x : ReclaimProofRequest) : Except RError String :=
  if !(validStringParam (some x.sessionId)) then
    .error (.getAppCallbackUrlError "Error getting app callback url")
  else
    .ok (match x.appCallbackUrl with
      | some u => if u == "" then DEFAULT_RECLAIM_CALLBACK_URL ++ x.sessionId else u
      | none => DEFAULT_RECLAIM_CALLBACK_URL ++ x.sessionId)

/-- getStatusUrl (src/src/Reclaim.ts lines 382-393): requires a valid
session id, then concatenates the fixed status base URL with it. -/
def getStatusUrl (x : ReclaimProofRequest) : Except RError String :=
  if !(validStringParam (some x.sessionId)) then
    .error (.getStatusUrlError "Error fetching status url")
  else
    .ok (DEFAULT_RECLAIM_STATUS_URL ++ x.sessionId)

/-- toJsonString (src/src/Reclaim.ts lines 450-464): JSON.stringify of the
eleven listed fields.  The JSON round trip is the identity on the record
(see ProofPropertiesJSON), so the embedding produces the record. -/
def toJsonString (x : ReclaimProofRequest) : ProofPropertiesJSON :=
  { applicationId := x.applicationId
  , providerId := x.providerId
  , sessionId := x.sessionId
  , context := x.context
  , parameters := x.parameters
  , appCallbackUrl := x.appCallbackUrl
  , signature := x.signature
  , redirectUrl := x.redirectUrl
  , timeStamp := x.timeStamp
  , options := x.options
  , sdkVersion := x.sdkVersion }

/-- fromJsonString (src/src/Reclaim.ts lines 256-323): destructure the JSON,
validate the six required string fields, conditionally validate redirectUrl,
appCallbackUrl (if truthy), context and parameters, then build an instance
through the constructor and assign every stored field.  Any failure is
caught and rethrown as InvalidParamError. -/
def fromJsonString (v : ValidationEnv) (j : ProofPropertiesJSON) :
    Except RError ReclaimProofRequest :=
  let tryBlock : Except RError ReclaimProofRequest :=
    if !(validStringParam (some j.applicationId)) then
      .error (.invalidParam "applicationId passed to fromJsonString must not be an empty string.")
    else if !(validStringParam (some j.providerId)) then
      .error (.invalidParam "providerId passed to fromJsonString must not be an empty string.")
    else if !(validStringParam j.signature) then
      .error (.invalidParam "signature passed to fromJsonString must not be an empty string.")
    else if !(validStringParam (some j.sessionId)) then
      .error (.invalidParam "sessionId passed to fromJsonString must not be an empty string.")
    else if !(validStringParam (some j.timeStamp)) then
      .error (.invalidParam "timeStamp passed to fromJsonString must not be an empty string.")
    else if !(validStringParam (some j.sdkVersion)) then
      .error (.invalidParam "sdkVersion passed to fromJsonString must not be an empty string.")
    else match checkOptionalURL v j.redirectUrl with
    | .error e => .error e
    | .ok _ =>
      match checkOptionalURL v j.appCallbackUrl with
      | .error e => .error e
      | .ok _ =>
        match validateContext j.context with
        | .error e => .error e
        | .ok _ =>
          match validateParameters j.parameters with
          | .error e => .error e
          | .ok _ =>
            .ok
              { applicationId := j.applicationId
              , providerId := j.providerId
              , sessionId := j.sessionId
              , context := j.context
              , parameters := j.parameters
              , appCallbackUrl := j.appCallbackUrl
              , signature := j.signature
              , redirectUrl := j.redirectUrl
              , timeStamp := j.timeStamp
              , options := j.options
              , sdkVersion := j.sdkVersion }
  match tryBlock with
  | .ok inst => .ok inst
  | .error _ => .error (.invalidParam "Invalid JSON string provided to fromJsonString")

/-- validateSignature (src/unnamed/part_000 lines 77-126): canonicalize the
providerId/timestamp pair, keccak-hash it, recover the signer with
ethers.utils.verifyMessage, lower-case it, and compare checksummed
addresses.  A mismatch raises InvalidSignatureError with the recovered
address in the message; any other failure inside the try block is wrapped
into InvalidSignatureError with a Failed-to-validate message. -/
def validateSignature (c : CryptoEnv) (providerId signature applicationId timestamp : String) :
    Except RError Unit :=
  let tryBlock : Except RError Unit := do
    match c.canonicalizePair providerId timestamp with
    | none => throw (.genericError "Failed to canonicalize message")
    | some message =>
      let messageHash := c.keccak256Utf8 message
      let appId := jsToLowerCase (c.verifyMessage messageHash signature)
      match c.getAddress appId, c.getAddress applicationId with
      | some a1, some a2 =>
        if a1 ≠ a2 then
          throw (.invalidSignature ("Signature does not match the application id: " ++ appId))
        else
          pure ()
      | _, _ => throw (.genericError "invalid address")
  match tryBlock with
  | .ok _ => .ok ()
  | .error (.invalidSignature m) => .error (.invalidSignature m)
  | .error e => .error (.invalidSignature ("Failed to validate signature: " ++ e.message))

/-- TemplateData (src/src/utils/types.ts lines 86-98 with the sdkVersion
field added at runtime): the transport payload assembled by
getRequestUrl. -/
structure TemplateData where
  sessionId : String
  providerId : String
  applicationId : String
  signature : String
  timestamp : String
  callbackUrl : String
  context : String
  parameters : List (String × String)
  redirectUrl : String
  acceptAiProviders : Bool
  sdkVersion : String
deriving DecidableEq, Repr

/-- Environment abstracting the network calls and platform facilities used
by getRequestUrl: the session-status backend, the link shortener, the JSON
stringifier and percent-encoder of the JS runtime, and the host OS flag. -/
structure LinkEnv where
  updateSessionOk : Bool
  shorten : String → Option String
  stringifyTemplate : TemplateData → String
  stringifyContext : Context → String
  encodeURIComponent : String → String
  platformIsIos : Bool

/-- getShortenedUrl (src/src/utils/errors.ts lines 64-86, proofUtils):
returns the shortened URL, falling back to the original URL on any
failure. -/
def getShortenedUrl (net : LinkEnv) (url : String) : String :=
  match net.shorten url with
  | some shortened => shortened
  | none => url

/-- createLinkWithTemplateData (src/src/utils/errors.ts lines 93-110,
proofUtils): percent-encode the JSON template, escape parentheses, prefix
the share base URL, and try to shorten. -/
def createLinkWithTemplateData (net : LinkEnv) (td : TemplateData) : String :=
  let template := net.encodeURIComponent (net.stringifyTemplate td)
  let template := replaceAll template "(" "%28"
  let template := replaceAll template ")" "%29"
  let fullLink := RECLAIM_SHARE_URL ++ template
  getShortenedUrl net fullLink

/-- getRequestUrl (src/src/Reclaim.ts lines 466-520): requires a signature
(SignatureNotFoundError otherwise), re-validates it with validateSignature,
assembles the template payload, updates the remote session, and renders
either the app-clip/instant-app URL (useAppClip) or the standard share
link.  Errors inside the try block are rethrown unchanged. -/
def getRequestUrl (c : CryptoEnv) (net : LinkEnv) (x : ReclaimProofRequest) :
    Except RError String :=
  match x.signature with
  | none => .error (.signatureNotFound "Signature is not set.")
  | some signature => do
    validateSignature c x.providerId signature x.applicationId x.timeStamp
    let callbackUrl ← getAppCallbackUrl x
    let templateData : TemplateData :=
      { sessionId := x.sessionId
      , providerId := x.providerId
      , applicationId := x.applicationId
      , signature := signature
      , timestamp := x.timeStamp
      , callbackUrl := callbackUrl
      , context := net.stringifyContext x.context
      , parameters := x.parameters
      , redirectUrl := x.redirectUrl.getD ""
      , acceptAiProviders := ((x.options.bind (fun o => o.acceptAiProviders)).getD false)
      , sdkVersion := x.sdkVersion }
    if !net.updateSessionOk then
      throw (.updateSessionError "Error updating session with sessionId: ")
    if ((x.options.bind (fun o => o.useAppClip)).getD false) then
      let template := net.encodeURIComponent (net.stringifyTemplate templateData)
      let template := replaceAll template "(" "%28"
      let template := replaceAll template ")" "%29"
      if !net.platformIsIos then
        pure ("https://share.reclaimprotocol.org/verify/?template=" ++ template)
      else
        pure ("https://appclip.apple.com/id?p=org.reclaimprotocol.app.clip&template=" ++ template)
    else
      pure (createLinkWithTemplateData net templateData)

/-- The session payload of a status response (StatusUrlResponse in
src/src/utils/types.ts lines 101-112). -/
structure SessionData where
  statusV2 : String
  proofs : Option (List Proof)
deriving DecidableEq, Repr

/-- StatusUrlResponse: the body returned by fetchStatusUrl; the session
payload may be absent. -/
structure StatusUrlResponse where
  session : Option SessionData
deriving DecidableEq, Repr

/-- The outcome of the awaited fetchStatusUrl call at the top of a poll tick
(sessionUtils is not under src/; the tick treats it as an awaited call that
either returns a response or throws, so its outcome is the tick input). -/
inductive FetchResult where
  | success (resp : StatusUrlResponse)
  | failure (e : RError)
deriving DecidableEq, Repr

/-- The mutable per-instance state read and written by the polling loop:
lastFailureTime and the session-id-keyed intervals registry
(src/src/Reclaim.ts lines 156-159).  The registry is the list of session ids
with a live interval handle; insertion order is kept. -/
structure SessionMutState where
  lastFailureTime : Option Nat
  intervals : List String
deriving DecidableEq, Repr

/-- The FAILURE_TIMEOUT constant (src/src/Reclaim.ts line 160): 30000 ms. -/
def FAILURE_TIMEOUT : Nat := 30000

/-- The single callback invocation performed by a terminal tick: the
argument passed to onSuccess (a single proof, a proof list, or the
custom-callback success message) or to onError. -/
inductive CallbackEvent where
  | successProof (p : Proof)
  | successProofs (ps : List Proof)
  | successMessage (msg : String)
  | errorCallback (e : RError)
deriving DecidableEq, Repr

/-- clearInterval (src/src/Reclaim.ts lines 442-447) action on the registry:
if the session id is truthy and registered, clear the timer and delete the
entry; otherwise do nothing (idempotent). -/
def clearIntervalList (sessionId : String) (l : List String) : List String :=
  if sessionId ≠ "" ∧ sessionId ∈ l then l.erase sessionId else l

/-- clearInterval acting on the mutable session state. -/
def clearIntervalState (x : ReclaimProofRequest) (st : SessionMutState) : SessionMutState :=
  { st with intervals := clearIntervalList x.sessionId st.intervals }

/-- The try block of one poll tick (src/src/Reclaim.ts lines 535-610), with
the mutable state threaded explicitly: a thrown error carries the state as
mutated up to the throw (the JS mutations before a throw persist).

Notes kept faithful to the source:
- a response without a session payload is a no-op tick;
- a non-failure status resets lastFailureTime before anything else;
- on status PROOF_GENERATION_FAILED the first observation records the
  current time and keeps polling; a later one throws ProviderFailedError
  when now - first is at least FAILURE_TIMEOUT, else keeps polling;
- the default-callback branch verifies the proofs synchronously and
  delivers them (single proof unwrapped, several as a list);
- the custom-callback branch treats PROOF_SUBMISSION_FAILED as fatal and
  PROOF_SUBMITTED as success with a fixed message (the proofs[0] null check
  cannot fire on the typed proof list and is dropped). -/
def sessionTickBody (c : CryptoEnv) (b : BeaconEnv) (x : ReclaimProofRequest)
    (st : SessionMutState) (now : Nat) (fetch : FetchResult) :
    Except (SessionMutState × RError) (SessionMutState × Option CallbackEvent) :=
  match fetch with
  | .failure e => .error (st, e)
  | .success resp =>
    match resp.session with
    | none => .ok (st, none)
    | some sess =>
      let st1 := if sess.statusV2 ≠ "PROOF_GENERATION_FAILED" then
          { st with lastFailureTime := none } else st
      if sess.statusV2 = "PROOF_GENERATION_FAILED" then
        match st1.lastFailureTime with
        | none => .ok ({ st1 with lastFailureTime := some now }, none)
        | some t0 =>
          if FAILURE_TIMEOUT ≤ now - t0 then
            .error (st1, .providerFailed "Proof generation failed - timeout reached")
          else
            .ok (st1, none)
      else
        match getAppCallbackUrl x with
        | .error e => .error (st1, e)
        | .ok callbackUrl =>
          if callbackUrl = DEFAULT_RECLAIM_CALLBACK_URL ++ x.sessionId then
            match sess.proofs with
            | some (p :: ps) =>
              match verifyProofList c b (p :: ps) with
              | .error e => .error (st1, e)
              | .ok verified =>
                if !verified then
                  .error (st1, .proofNotVerified "")
                else
                  let ev := if ps.isEmpty then CallbackEvent.successProof p
                    else CallbackEvent.successProofs (p :: ps)
                  .ok (clearIntervalState x st1, some ev)
            | _ => .ok (st1, none)
          else
            if sess.statusV2 = "PROOF_SUBMISSION_FAILED" then
              .error (st1, .proofSubmissionFailed "")
            else if sess.statusV2 = "PROOF_SUBMITTED" then
              .ok (clearIntervalState x st1,
                some (.successMessage "Proof submitted successfully to the custom callback url"))
            else
              .ok (st1, none)

/-- One poll tick including the catch handler (src/src/Reclaim.ts lines
611-616): a thrown error invokes onError once and clears the interval. -/
def sessionTick (c : CryptoEnv) (b : BeaconEnv) (x : ReclaimProofRequest)
    (st : SessionMutState) (now : Nat) (fetch : FetchResult) :
    SessionMutState × Option CallbackEvent :=
  match sessionTickBody c b x st now fetch with
  | .ok r => r
  | .error (st1, e) => (clearIntervalState x st1, some (.errorCallback e))

/-- One scheduled event observed by a session: a poll tick firing (with the
current wall-clock time and the fetch outcome), or the interval-ending task.
The ending task comes from scheduleIntervalEndingTask (utils/helper, not
under src/). -/
inductive TickInput where
  | poll (now : Nat) (fetch : FetchResult)
  | endingTask
deriving DecidableEq, Repr

/-- Applying one scheduled event.  A poll tick fires only while the session
id holds a live interval handle (clearInterval both cancels the timer and
removes the registry entry, and the two are updated together, so registry
membership models timer liveness).  The ending task is Modelled from the
spec (sections 4.7 and 5): an external cancellation that, if the session
still holds a live handle, clears it and delivers an error; once the handle
is cleared it cannot fire again. -/
def applyTickInput (c : CryptoEnv) (b : BeaconEnv) (x : ReclaimProofRequest)
    (st : SessionMutState) : TickInput → SessionMutState × Option CallbackEvent
  | .poll now fetch =>
    if x.sessionId ∈ st.intervals then sessionTick c b x st now fetch else (st, none)
  | .endingTask =>
    if x.sessionId ∈ st.intervals then
      (clearIntervalState x st, some (.errorCallback (.sessionTimedOut "Session timed out")))
    else
      (st, none)

/-- Running a whole sequence of scheduled events, collecting every callback
invocation in order. -/
def runSession (c : CryptoEnv) (b : BeaconEnv) (x : ReclaimProofRequest)
    (st : SessionMutState) : List TickInput → SessionMutState × List CallbackEvent
  | [] => (st, [])
  | i :: rest =>
    ((runSession c b x (applyTickInput c b x st i).1 rest).1,
      (applyTickInput c b x st i).2.toList
        ++ (runSession c b x (applyTickInput c b x st i).1 rest).2)

/-- startSession entry (src/src/Reclaim.ts lines 522-533 and 619-620):
requires a truthy session id (SessionNotStartedError otherwise), registers
the interval handle under the session id, and schedules the polling loop.
Map.set semantics: an existing entry for the id is replaced, otherwise the
id is appended. -/
def startSessionRegister (x : ReclaimProofRequest) (st : SessionMutState) :
    Except RError SessionMutState :=
  if x.sessionId = "" then
    .error (.sessionNotStarted "Session cant be started due to undefined value of sessionId")
  else if x.sessionId ∈ st.intervals then
    .ok st
  else
    .ok { st with intervals := st.intervals ++ [x.sessionId] }

/-- Whether an optional callback event is an onError invocation carrying
ProviderFailedError. -/
def isProviderFailedEvent : Option CallbackEvent → Bool
  | some (.errorCallback (.providerFailed _)) => true
  | _ => false

/-!  Concrete environments used by witness instances.  The crypto functions
are arbitrary computable stand-ins; the theorems hold for every
environment, and the witnesses only need one. -/

/-- A concrete crypto environment: recovery returns the signature string
itself, so a signature literally names its signer. -/
def cW : CryptoEnv :=
  { verifyMessage := fun _ signature => signature
  , createSignDataForClaim := fun _ => "data"
  , getIdentifierFromClaimInfo := fun info => info.provider
  , canonicalizeParams := fun s => s
  , canonicalizePair := fun providerId timestamp => some (providerId ++ "|" ++ timestamp)
  , keccak256Utf8 := fun s => s
  , getAddress := fun s => some s }

/-- A concrete beacon environment with no beacon configured. -/
def bW : BeaconEnv :=
  { beacon := none
  , fetchWitnessListForClaim := fun state _ _ => state }

/-- A concrete beacon environment with a beacon answering every epoch. -/
def bW2 : BeaconEnv :=
  { beacon := some (fun _ => [{ id := "0xFF", url := "http://w" }])
  , fetchWitnessListForClaim := fun state _ _ => state }

/-- A concrete claim payload for witness instances. -/
def claimW : CompleteClaimData :=
  { provider := "http"
  , parameters := "params"
  , context := "ctx"
  , owner := "0xowner"
  , timestampS := 1700000000
  , epoch := 5
  , identifier := "http"
  }

/-- A concrete proof taking the manual-verify path whose stated identifier
matches the recomputed one (cW derives the provider string as
identifier). -/
def pManualW : Proof :=
  { identifier := "http"
  , claimData := claimW
  , signatures := ["0xaa"]
  , witnesses := [{ id := "0xaa", url := "manual-verify" }] }

/-- A concrete proof whose stated identifier disagrees with the recomputed
one. -/
def pMismatchW : Proof :=
  { identifier := "other"
  , claimData := claimW
  , signatures := ["0xaa"]
  , witnesses := [{ id := "0xaa", url := "manual-verify" }] }

/-- A concrete proof taking the manual-verify path whose first witness id
contains an uppercase letter. -/
def pUpperW : Proof :=
  { identifier := "http"
  , claimData := claimW
  , signatures := ["0xAa"]
  , witnesses := [{ id := "0xAa", url := "manual-verify" }] }

/-- A concrete proof with an empty signatures list. -/
def pEmptyW : Proof :=
  { identifier := "http"
  , claimData := claimW
  , signatures := []
  , witnesses := [] }

/-- A concrete request instance for witness instances. -/
def xW : ReclaimProofRequest :=
  { applicationId := "0xapp"
  , providerId := "prov"
  , sessionId := "sid"
  , context := { contextAddress := "0x0", contextMessage := "sample message" }
  , parameters := [("k", "v")]
  , appCallbackUrl := none
  , signature := some "0xapp"
  , redirectUrl := none
  , timeStamp := "1700000000000"
  , options := none
  , sdkVersion := "rn-1.0.0" }

/-- A concrete validation environment accepting every URL. -/
def vW : ValidationEnv :=
  { isValidURL := fun _ => true }

/-- A concrete link/network environment. -/
def netW : LinkEnv :=
  { updateSessionOk := true
  , shorten := fun _ => none
  , stringifyTemplate := fun _ => "template"
  , stringifyContext := fun _ => "ctx"
  , encodeURIComponent := fun s => s
  , platformIsIos := false }

/-- The concrete request with a custom (non-default) callback URL. -/
def xCustomW : ReclaimProofRequest :=
  { xW with appCallbackUrl := some "https://custom.example/cb" }

/-- The concrete request with no signature set. -/
def xNoSigW : ReclaimProofRequest :=
  { xW with signature := none }

/-- The concrete request with a signature recovering to an address other
than its applicationId. -/
def xBadSigW : ReclaimProofRequest :=
  { xW with signature := some "0xother" }

end ReclaimSDK

namespace ReclaimSDK

/-! ## Helper lemmas -/

theorem char_toNat_ofNat_of_valid (n : Nat) (h : n.isValidChar) :
    (Char.ofNat n).toNat = n := by
  rw [Char.ofNat, dif_pos h]
  rfl

theorem toLower_toNat_not_upper (c : Char) :
    ¬(65 ≤ (Char.toLower c).toNat ∧ (Char.toLower c).toNat ≤ 90) := by
  simp only [Char.toLower]
  by_cases h : c.toNat ≥ 65 ∧ c.toNat ≤ 90
  · rw [if_pos h]
    rw [char_toNat_ofNat_of_valid]
    · omega
    · left
      omega
  · rw [if_neg h]
    omega

theorem containsUpper_jsToLowerCase (s : String) :
    containsUpper (jsToLowerCase s) = false := by
  simp only [containsUpper, jsToLowerCase, List.any_map]
  rw [List.any_eq_false]
  intro c _
  simpa using toLower_toNat_not_upper c

theorem jsToLowerCase_ne_of_containsUpper (s target : String)
    (h : containsUpper target = true) : jsToLowerCase s ≠ target := by
  intro heq
  rw [← heq] at h
  rw [containsUpper_jsToLowerCase] at h
  exact Bool.false_ne_true h

theorem foldl_erase_eq_filter (ws init : List String) (h : init.Nodup) :
    ws.foldl (fun s w => if w ∈ s then s.erase w else s) init
      = init.filter (fun e => !ws.contains e) := by
  induction ws generalizing init with
  | nil => simp
  | cons w ws ih =>
    simp only [List.foldl_cons]
    have step : (if w ∈ init then init.erase w else init)
        = init.filter (fun e => e != w) := by
      split
      · exact h.erase_eq_filter w
      · next hn =>
        symm
        apply List.filter_eq_self.mpr
        intro a ha
        simp only [bne_iff_ne, ne_eq, decide_eq_true_eq]
        rintro rfl
        exact hn ha
    rw [step, ih _ (h.filter _)]
    rw [List.filter_filter]
    apply List.filter_congr
    intro a _
    by_cases haw : a = w <;> by_cases haws : a ∈ ws <;>
      simp [List.contains_cons, haw, haws, bne]

/-- The set of expected witnesses left after deleting every recovered
signer equals the dedup of the expected list filtered to the addresses not
recovered. -/
theorem assertValidSignedClaim_eq (c : CryptoEnv) (sc : SignedClaim)
    (expected : List String) :
    assertValidSignedClaim c sc expected =
      (if (expected.dedup.filter
            (fun e => !((recoverSignersOfSignedClaim c sc).contains e))).length > 0 then
        .error (.proofNotVerified ("Missing signatures from " ++ String.intercalate ", "
          (expected.dedup.filter
            (fun e => !((recoverSignersOfSignedClaim c sc).contains e)))))
      else .ok ()) := by
  simp only [assertValidSignedClaim]
  rw [foldl_erase_eq_filter _ _ (List.nodup_dedup expected)]

theorem except_bind_ok {ε α β : Type} (a : α) (f : α → Except ε β) :
    (Except.ok a >>= f : Except ε β) = f a := rfl

theorem except_bind_error {ε α β : Type} (e : ε) (f : α → Except ε β) :
    (Except.error e >>= f : Except ε β) = Except.error e := rfl

theorem except_throw {ε α : Type} (e : ε) : (throw e : Except ε α) = Except.error e := rfl

theorem except_pure {ε α : Type} (a : α) : (pure a : Except ε α) = Except.ok a := rfl

theorem catchToFalse_isOk (t : Except RError Bool) : ∃ bl, catchToFalse t = .ok bl := by
  cases t with
  | ok b => exact ⟨b, rfl⟩
  | error e => exact ⟨false, rfl⟩

theorem catchToFalse_error (e : RError) : catchToFalse (.error e) = .ok false := rfl

theorem catchToFalse_okArg (b : Bool) : catchToFalse (.ok b) = .ok b := rfl

theorem isEmpty_false_of_ne_nil {α : Type} {l : List α} (h : l ≠ []) :
    l.isEmpty = false := by
  cases l with
  | nil => exact absurd rfl h
  | cons a l => rfl

/-- The witness-resolution step short-circuits to the first witness id when
its url is the manual-verify sentinel. -/
theorem resolveWitnesses_manual (b : BeaconEnv) (p : Proof) (w : WitnessEntry)
    (ws : List WitnessEntry) (h1 : p.witnesses = w :: ws)
    (h2 : w.url = "manual-verify") : resolveWitnesses b p = .ok [w.id] := by
  simp [resolveWitnesses, h1, h2]

/-- verifyProof on a single proof either raises SignatureNotFoundError (the
signatures list was empty) or returns a boolean. -/
theorem verifyProofSingle_shape (c : CryptoEnv) (b : BeaconEnv) (p : Proof) :
    (p.signatures = [] ∧ verifyProofSingle c b p = .error (.signatureNotFound "No signatures"))
    ∨ (p.signatures ≠ [] ∧ ∃ bl, verifyProofSingle c b p = .ok bl) := by
  by_cases h : p.signatures = []
  · left
    refine ⟨h, ?_⟩
    unfold verifyProofSingle
    rw [if_pos (by rw [h]; rfl)]
  · right
    refine ⟨h, ?_⟩
    unfold verifyProofSingle
    rw [if_neg (by rw [isEmpty_false_of_ne_nil h]; simp)]
    exact catchToFalse_isOk _

/-- Every exception escaping verifyProof on a proof list is the
SignatureNotFoundError raised before the try block. -/
theorem verifyProofList_error_shape (c : CryptoEnv) (b : BeaconEnv) :
    ∀ (ps : List Proof) (e : RError), verifyProofList c b ps = .error e →
      e = .signatureNotFound "No signatures" := by
  intro ps
  induction ps with
  | nil =>
    intro e h
    exact absurd h (by simp [verifyProofList])
  | cons p ps ih =>
    intro e h
    rw [verifyProofList] at h
    rcases verifyProofSingle_shape c b p with ⟨_, herr⟩ | ⟨_, bl, hok⟩
    · rw [herr, except_bind_error] at h
      injection h with h2
      exact h2.symm
    · rw [hok, except_bind_ok] at h
      by_cases hbl : bl
      · rw [hbl] at h
        simp only [Bool.not_true, Bool.false_eq_true, if_false] at h
        exact ih e h
      · rw [Bool.eq_false_iff.mpr hbl] at h
        simp only [Bool.not_false, if_true, except_pure] at h
        exact absurd h (by intro hc; exact Except.noConfusion hc)

/-! ## Claim theorems -/

/-- C1: quorum validation is a coverage check, not an exact-match check.
If every expected witness address is among the recovered signers,
assertValidSignedClaim succeeds, whatever the order of the signatures and
whatever extra signers are present.  If some expected witness is missing
from the recovered signers, it fails with ProofNotVerifiedError whose
message names exactly the missing addresses.  And duplicate signatures from
one address never cover two distinct expected witnesses: if every recovered
signer is the single address A, a quorum of two distinct expected addresses
is never satisfied. -/
theorem C1_quorum_coverage (c : CryptoEnv) (sc : SignedClaim) (expected : List String) :
    ((∀ e ∈ expected, e ∈ recoverSignersOfSignedClaim c sc) →
      assertValidSignedClaim c sc expected = .ok ())
    ∧ ((∃ e ∈ expected, e ∉ recoverSignersOfSignedClaim c sc) →
      assertValidSignedClaim c sc expected =
        .error (.proofNotVerified ("Missing signatures from " ++ String.intercalate ", "
          (expected.dedup.filter
            (fun e => !((recoverSignersOfSignedClaim c sc).contains e))))))
    ∧ (∀ A B, A ≠ B → (∀ s2 ∈ recoverSignersOfSignedClaim c sc, s2 = A) →
      assertValidSignedClaim c sc [A, B] ≠ .ok ()) := by
  refine ⟨?_, ?_, ?_⟩
  · intro hcov
    rw [assertValidSignedClaim_eq]
    have hnil : expected.dedup.filter
        (fun e => !((recoverSignersOfSignedClaim c sc).contains e)) = [] := by
      apply List.filter_eq_nil_iff.mpr
      intro a ha
      have : a ∈ recoverSignersOfSignedClaim c sc :=
        hcov a ((List.mem_dedup).mp ha)
      simp [this]
    rw [hnil]
    simp
  · rintro ⟨e, he, hne⟩
    rw [assertValidSignedClaim_eq]
    have hmem : e ∈ expected.dedup.filter
        (fun e => !((recoverSignersOfSignedClaim c sc).contains e)) := by
      rw [List.mem_filter]
      refine ⟨(List.mem_dedup).mpr he, ?_⟩
      simp [hne]
    have hpos : 0 < (expected.dedup.filter
        (fun e => !((recoverSignersOfSignedClaim c sc).contains e))).length :=
      List.length_pos.mpr (List.ne_nil_of_mem hmem)
    rw [if_pos hpos]
  · intro A B hAB hall
    rw [assertValidSignedClaim_eq]
    have hBmem : B ∈ ([A, B].dedup.filter
        (fun e => !((recoverSignersOfSignedClaim c sc).contains e))) := by
      rw [List.mem_filter]
      constructor
      · exact (List.mem_dedup).mpr (by simp)
      · have : B ∉ recoverSignersOfSignedClaim c sc := by
          intro hB
          exact hAB (hall B hB).symm
        simp [this]
    have hpos : 0 < ([A, B].dedup.filter
        (fun e => !((recoverSignersOfSignedClaim c sc).contains e))).length :=
      List.length_pos.mpr (List.ne_nil_of_mem hBmem)
    rw [if_pos hpos]
    intro hcontra
    exact Except.noConfusion hcontra

/-- Witness for C1: with recovery returning the signature itself, a claim
signed by 0xa, 0xb and 0xc covers the expected set consisting of 0xb and
0xa (order differs, 0xc is an extra signer); an expected set containing 0xd
fails naming exactly 0xd; and two duplicate signatures from 0xa never
satisfy the expected pair 0xa, 0xb. -/
theorem C1_quorum_coverage_witness :
    assertValidSignedClaim cW { claim := claimW, signatures := ["0xa", "0xb", "0xc"] }
      ["0xb", "0xa"] = .ok ()
    ∧ assertValidSignedClaim cW { claim := claimW, signatures := ["0xa", "0xb", "0xc"] }
      ["0xa", "0xd"] =
        .error (.proofNotVerified "Missing signatures from 0xd")
    ∧ assertValidSignedClaim cW { claim := claimW, signatures := ["0xa", "0xa"] }
      ["0xa", "0xb"] ≠ .ok () := by
  refine ⟨?_, ?_, ?_⟩
  · exact (C1_quorum_coverage cW
      { claim := claimW, signatures := ["0xa", "0xb", "0xc"] } ["0xb", "0xa"]).1
      (by decide)
  · have h := (C1_quorum_coverage cW
      { claim := claimW, signatures := ["0xa", "0xb", "0xc"] } ["0xa", "0xd"]).2.1
      (by exact ⟨"0xd", by decide, by decide⟩)
    exact h.trans (by rfl)
  · exact (C1_quorum_coverage cW
      { claim := claimW, signatures := ["0xa", "0xa"] } ["0xa", "0xb"]).2.2
      "0xa" "0xb" (by decide) (by decide)

/-- C2: manual-verify shortcut.  For every proof whose witnesses list is
non-empty and whose first entry has url manual-verify, the resolved witness
set is exactly the singleton of that first entry id, and verification does
not depend on the beacon environment at all (it proceeds identically under
any beacon, including none). -/
theorem C2_manual_verify_shortcut (c : CryptoEnv) (b b2 : BeaconEnv) (p : Proof)
    (w : WitnessEntry) (ws : List WitnessEntry)
    (h1 : p.witnesses = w :: ws) (h2 : w.url = "manual-verify") :
    resolveWitnesses b p = .ok [w.id]
    ∧ verifyProofSingle c b p = verifyProofSingle c b2 p := by
  have hres : ∀ b0 : BeaconEnv, resolveWitnesses b0 p = .ok [w.id] := fun b0 =>
    resolveWitnesses_manual b0 p w ws h1 h2
  refine ⟨hres b, ?_⟩
  unfold verifyProofSingle
  rw [hres b, hres b2]

/-- Witness for C2: a manual-verify proof resolves to its first witness id
and verifies identically with no beacon (bW) and with a beacon answering
every epoch (bW2). -/
theorem C2_manual_verify_shortcut_witness :
    resolveWitnesses bW pManualW = .ok ["0xaa"]
    ∧ verifyProofSingle cW bW pManualW = verifyProofSingle cW bW2 pManualW :=
  C2_manual_verify_shortcut cW bW bW2 pManualW
    { id := "0xaa", url := "manual-verify" } [] rfl rfl

/-- C3: identifier check with quote normalization.  For every proof with a
non-empty signatures list, verifyProof strips every double-quote character
from the stated identifier, recomputes the identifier from the claim data
(provider, canonicalized parameters, context), and returns false whenever
the recomputed identifier differs from the normalized stated one. -/
theorem C3_identifier_quote_normalization (c : CryptoEnv) (b : BeaconEnv) (p : Proof)
    (hs : p.signatures ≠ [])
    (hm : calculatedIdentifier c p ≠ replaceAll p.identifier "\"" "") :
    verifyProofSingle c b p = .ok false := by
  unfold verifyProofSingle
  rw [if_neg (by rw [isEmpty_false_of_ne_nil hs]; simp)]
  cases hres : resolveWitnesses b p with
  | error e => rw [except_bind_error, catchToFalse_error]
  | ok witnesses =>
    rw [except_bind_ok]
    simp [hm, except_throw, except_bind_error, catchToFalse_error]

/-- Witness for C3: a proof whose stated identifier differs from the
recomputed one is rejected with a false return. -/
theorem C3_identifier_quote_normalization_witness :
    verifyProofSingle cW bW pMismatchW = .ok false :=
  C3_identifier_quote_normalization cW bW pMismatchW (by decide) (by decide)

/-- C8: verifyProof applied to an empty array of proofs returns true: the
per-proof loop has nothing to reject. -/
theorem C8_empty_proof_list (c : CryptoEnv) (b : BeaconEnv) :
    verifyProofList c b [] = .ok true := rfl

/-- C9: for every single proof with an empty signatures list, verifyProof
throws SignatureNotFoundError instead of returning false, and this is the
only failure that escapes as an exception: every error outcome of
verifyProof on a single proof is that SignatureNotFoundError, raised
exactly when the signatures list is empty. -/
theorem C9_signature_not_found_escapes (c : CryptoEnv) (b : BeaconEnv) (p : Proof) :
    (p.signatures = [] →
      verifyProofSingle c b p = .error (.signatureNotFound "No signatures"))
    ∧ (∀ e, verifyProofSingle c b p = .error e →
      p.signatures = [] ∧ e = .signatureNotFound "No signatures") := by
  constructor
  · intro h
    rcases verifyProofSingle_shape c b p with ⟨_, herr⟩ | ⟨hne, _⟩
    · exact herr
    · exact absurd h hne
  · intro e h
    rcases verifyProofSingle_shape c b p with ⟨hnil, herr⟩ | ⟨hne, bl, hok⟩
    · have := herr.symm.trans h
      injection this with h2
      exact ⟨hnil, h2.symm⟩
    · rw [hok] at h
      exact absurd h (by intro hc; exact Except.noConfusion hc)

/-- Witness for C9: the concrete proof with no signatures raises
SignatureNotFoundError. -/
theorem C9_signature_not_found_escapes_witness :
    verifyProofSingle cW bW pEmptyW = .error (.signatureNotFound "No signatures")
    ∧ (pEmptyW.signatures = []
      ∧ RError.signatureNotFound "No signatures" = .signatureNotFound "No signatures") :=
  ⟨(C9_signature_not_found_escapes cW bW pEmptyW).1 rfl,
    (C9_signature_not_found_escapes cW bW pEmptyW).2
      (.signatureNotFound "No signatures")
      ((C9_signature_not_found_escapes cW bW pEmptyW).1 rfl)⟩

/-- C10: witness-address case asymmetry.  A manual-verify witness id is
used exactly as given while recovered signer addresses are lower-cased, so
when the first witness id contains an uppercase letter the quorum check can
never be satisfied and verifyProof returns false, whatever the signatures
of the proof are. -/
theorem C10_manual_verify_case_asymmetry (c : CryptoEnv) (b : BeaconEnv) (p : Proof)
    (w : WitnessEntry) (ws : List WitnessEntry)
    (h0 : p.signatures ≠ []) (h1 : p.witnesses = w :: ws)
    (h2 : w.url = "manual-verify") (h3 : containsUpper w.id = true) :
    assertValidSignedClaim c { claim := p.claimData, signatures := p.signatures } [w.id] ≠ .ok ()
    ∧ verifyProofSingle c b p = .ok false := by
  have hnotmem : w.id ∉ recoverSignersOfSignedClaim c
      { claim := p.claimData, signatures := p.signatures } := by
    intro hmem
    rw [recoverSignersOfSignedClaim, List.mem_map] at hmem
    obtain ⟨s, _, heq⟩ := hmem
    exact jsToLowerCase_ne_of_containsUpper _ _ h3 heq
  have hfilter : ([w.id].dedup.filter
      (fun e => !((recoverSignersOfSignedClaim c
        { claim := p.claimData, signatures := p.signatures }).contains e))) = [w.id] := by
    simp [hnotmem]
  have herr : assertValidSignedClaim c
      { claim := p.claimData, signatures := p.signatures } [w.id]
      = .error (.proofNotVerified ("Missing signatures from "
          ++ String.intercalate ", " [w.id])) := by
    rw [assertValidSignedClaim_eq, hfilter]
    simp
  constructor
  · rw [herr]
    intro hc
    exact Except.noConfusion hc
  · unfold verifyProofSingle
    rw [if_neg (by rw [isEmpty_false_of_ne_nil h0]; simp)]
    rw [resolveWitnesses_manual b p w ws h1 h2, except_bind_ok]
    by_cases hid : calculatedIdentifier c p ≠ replaceAll p.identifier "\"" ""
    · simp [hid, except_throw, except_bind_error, catchToFalse_error]
    · push_neg at hid
      simp [hid, except_pure, except_bind_ok, except_bind_error, herr,
        catchToFalse_error]

/-- Witness for C10: a manual-verify proof whose witness id 0xAa carries an
uppercase letter fails quorum validation and verifies to false. -/
theorem C10_manual_verify_case_asymmetry_witness :
    assertValidSignedClaim cW
      { claim := pUpperW.claimData, signatures := pUpperW.signatures } ["0xAa"] ≠ .ok ()
    ∧ verifyProofSingle cW bW pUpperW = .ok false :=
  C10_manual_verify_case_asymmetry cW bW pUpperW
    { id := "0xAa", url := "manual-verify" } [] (by decide) rfl rfl (by decide)

theorem validStringParam_true {s : String} (h : jsTrim s ≠ "") :
    validStringParam (some s) = true := by
  simp [validStringParam, h]

theorem validateContext_ok {ctx : Context} (h9 : jsTrim ctx.contextAddress ≠ "")
    (h10 : jsTrim ctx.contextMessage ≠ "") : validateContext ctx = .ok () := by
  have ha : ctx.contextAddress ≠ "" := fun hh => h9 (by rw [hh]; rfl)
  have hm : ctx.contextMessage ≠ "" := fun hh => h10 (by rw [hh]; rfl)
  simp [validateContext, ha, hm, validStringParam, h9, h10]

theorem checkOptionalURL_ok {v : ValidationEnv} {ou : Option String}
    (h : ∀ u, ou = some u → v.isValidURL u = true) :
    checkOptionalURL v ou = .ok () := by
  cases ou with
  | none => rfl
  | some u =>
    simp only [checkOptionalURL]
    by_cases hu : u = ""
    · simp [hu]
    · simp [hu, validateURL, h u rfl]

/-- C6: serialization round trip.  For every request instance whose fields
satisfy the validation rules enforced by the setters (non-blank required
strings, a signature present, URLs valid when set, a valid context),
fromJsonString applied to the toJsonString output succeeds and reconstructs
the instance exactly, so every externally visible getter, in particular
getAppCallbackUrl and getStatusUrl, agrees with the original. -/
theorem C6_serialization_roundtrip (v : ValidationEnv) (x : ReclaimProofRequest)
    (h1 : jsTrim x.applicationId ≠ "")
    (h2 : jsTrim x.providerId ≠ "")
    (h3 : ∃ s, x.signature = some s ∧ jsTrim s ≠ "")
    (h4 : jsTrim x.sessionId ≠ "")
    (h5 : jsTrim x.timeStamp ≠ "")
    (h6 : jsTrim x.sdkVersion ≠ "")
    (h7 : ∀ u, x.redirectUrl = some u → v.isValidURL u = true)
    (h8 : ∀ u, x.appCallbackUrl = some u → v.isValidURL u = true)
    (h9 : jsTrim x.context.contextAddress ≠ "")
    (h10 : jsTrim x.context.contextMessage ≠ "") :
    fromJsonString v (toJsonString x) = .ok x
    ∧ (fromJsonString v (toJsonString x)).map (fun y => getAppCallbackUrl y)
        = .ok (getAppCallbackUrl x)
    ∧ (fromJsonString v (toJsonString x)).map (fun y => getStatusUrl y)
        = .ok (getStatusUrl x) := by
  obtain ⟨s, hsig, hst⟩ := h3
  have hmain : fromJsonString v (toJsonString x) = .ok x := by
    simp [fromJsonString, toJsonString, hsig,
      validStringParam_true h1, validStringParam_true h2,
      validStringParam_true hst, validStringParam_true h4,
      validStringParam_true h5, validStringParam_true h6,
      checkOptionalURL_ok h7, checkOptionalURL_ok h8,
      validateContext_ok h9 h10, validateParameters]
    rw [← hsig]
  exact ⟨hmain, by rw [hmain]; rfl, by rw [hmain]; rfl⟩

/-- Witness for C6: the concrete request xW round-trips through
serialization. -/
theorem C6_serialization_roundtrip_witness :
    fromJsonString vW (toJsonString xW) = .ok xW
    ∧ (fromJsonString vW (toJsonString xW)).map (fun y => getAppCallbackUrl y)
        = .ok (getAppCallbackUrl xW)
    ∧ (fromJsonString vW (toJsonString xW)).map (fun y => getStatusUrl y)
        = .ok (getStatusUrl xW) :=
  C6_serialization_roundtrip vW xW (by decide) (by decide)
    ⟨"0xapp", rfl, by decide⟩ (by decide) (by decide) (by decide)
    (fun u h => Option.noConfusion h) (fun u h => Option.noConfusion h)
    (by decide) (by decide)

/-- validateSignature fails with InvalidSignatureError carrying the
recovered address when the checksummed recovered signer differs from the
checksummed applicationId. -/
theorem validateSignature_mismatch (c : CryptoEnv)
    (providerId signature applicationId timestamp m a1 a2 : String)
    (hc : c.canonicalizePair providerId timestamp = some m)
    (hg1 : c.getAddress (jsToLowerCase (c.verifyMessage (c.keccak256Utf8 m) signature))
      = some a1)
    (hg2 : c.getAddress applicationId = some a2)
    (hne : a1 ≠ a2) :
    validateSignature c providerId signature applicationId timestamp
      = .error (.invalidSignature ("Signature does not match the application id: "
          ++ jsToLowerCase (c.verifyMessage (c.keccak256Utf8 m) signature))) := by
  simp [validateSignature, hc, hg1, hg2, hne, except_throw]

/-- C7: getRequestUrl preconditions.  With no signature set it fails with
SignatureNotFoundError; with a signature set it re-validates the signature
by recovering the signer of the canonicalized providerId/timestamp payload
and fails with InvalidSignatureError when the recovered address does not
match the applicationId. -/
theorem C7_getRequestUrl_preconditions (c : CryptoEnv) (net : LinkEnv)
    (x1 x2 : ReclaimProofRequest) (sig m a1 a2 : String)
    (h1 : x1.signature = none)
    (h2 : x2.signature = some sig)
    (hc : c.canonicalizePair x2.providerId x2.timeStamp = some m)
    (hg1 : c.getAddress (jsToLowerCase (c.verifyMessage (c.keccak256Utf8 m) sig))
      = some a1)
    (hg2 : c.getAddress x2.applicationId = some a2)
    (hne : a1 ≠ a2) :
    getRequestUrl c net x1 = .error (.signatureNotFound "Signature is not set.")
    ∧ getRequestUrl c net x2 = .error (.invalidSignature
        ("Signature does not match the application id: "
          ++ jsToLowerCase (c.verifyMessage (c.keccak256Utf8 m) sig))) := by
  constructor
  · simp [getRequestUrl, h1]
  · have hv := validateSignature_mismatch c x2.providerId sig x2.applicationId
      x2.timeStamp m a1 a2 hc hg1 hg2 hne
    simp only [getRequestUrl, h2]
    rw [hv, except_bind_error]

/-- Witness for C7: the concrete request without a signature fails with
SignatureNotFoundError, and the concrete request whose signature recovers
to 0xother instead of 0xapp fails with InvalidSignatureError. -/
theorem C7_getRequestUrl_preconditions_witness :
    getRequestUrl cW netW xNoSigW = .error (.signatureNotFound "Signature is not set.")
    ∧ getRequestUrl cW netW xBadSigW = .error (.invalidSignature
        ("Signature does not match the application id: 0xother")) :=
  C7_getRequestUrl_preconditions cW netW xNoSigW xBadSigW
    "0xother" "prov|1700000000000" "0xother" "0xapp"
    rfl rfl rfl rfl rfl (by decide)

/-- Every state carried out of the try block of a tick (normally or by a
throw) has the same intervals registry as the incoming state: the try block
itself only clears the registry on the success paths that also emit the
success callback. -/
theorem sessionTickBody_error_intervals (c : CryptoEnv) (b : BeaconEnv)
    (x : ReclaimProofRequest) (st : SessionMutState) (now : Nat) (f : FetchResult)
    (st1 : SessionMutState) (e : RError)
    (h : sessionTickBody c b x st now f = .error (st1, e)) :
    st1.intervals = st.intervals := by
  unfold sessionTickBody at h
  repeat' split at h
  all_goals (try (cases hlf : st.lastFailureTime <;> simp only [hlf] at h))
  all_goals (repeat' split at h)
  all_goals (try (obtain ⟨h1, h2⟩ := h))
  all_goals simp_all

/-- The try block of a tick either ends quietly with the registry unchanged
or emits an event having cleared the registry entry. -/
theorem sessionTickBody_ok_shape (c : CryptoEnv) (b : BeaconEnv)
    (x : ReclaimProofRequest) (st : SessionMutState) (now : Nat) (f : FetchResult)
    (st1 : SessionMutState) (ev : Option CallbackEvent)
    (h : sessionTickBody c b x st now f = .ok (st1, ev)) :
    (ev = none ∧ st1.intervals = st.intervals)
    ∨ (ev.isSome ∧ st1.intervals = clearIntervalList x.sessionId st.intervals) := by
  unfold sessionTickBody at h
  repeat' split at h
  all_goals (try (cases hlf : st.lastFailureTime <;> simp only [hlf] at h))
  all_goals (repeat' split at h)
  all_goals (try (obtain ⟨h1, h2⟩ := h))
  all_goals simp_all [clearIntervalState, clearIntervalList]

/-- One poll tick either keeps polling with the registry unchanged and no
callback, or fires exactly one callback and clears the registry entry. -/
theorem sessionTick_shape (c : CryptoEnv) (b : BeaconEnv)
    (x : ReclaimProofRequest) (st : SessionMutState) (now : Nat) (f : FetchResult) :
    ((sessionTick c b x st now f).2 = none
      ∧ (sessionTick c b x st now f).1.intervals = st.intervals)
    ∨ ((sessionTick c b x st now f).2.isSome
      ∧ (sessionTick c b x st now f).1.intervals
          = clearIntervalList x.sessionId st.intervals) := by
  unfold sessionTick
  cases hb : sessionTickBody c b x st now f with
  | ok r =>
    rcases sessionTickBody_ok_shape c b x st now f r.1 r.2 (by rw [hb]) with
      ⟨hev, hint⟩ | ⟨hev, hint⟩
    · left
      exact ⟨hev, hint⟩
    · right
      exact ⟨hev, hint⟩
  | error pe =>
    right
    refine ⟨rfl, ?_⟩
    have := sessionTickBody_error_intervals c b x st now f pe.1 pe.2 (by rw [hb])
    simp [clearIntervalState, this]

/-- Once the registry no longer holds the session id, no scheduled event
does anything: the timer is gone and the ending task is guarded. -/
theorem runSession_inactive (c : CryptoEnv) (b : BeaconEnv)
    (x : ReclaimProofRequest) (st : SessionMutState)
    (h : x.sessionId ∉ st.intervals) :
    ∀ inputs, runSession c b x st inputs = (st, []) := by
  intro inputs
  induction inputs with
  | nil => rfl
  | cons i rest ih =>
    have happ : applyTickInput c b x st i = (st, none) := by
      cases i <;> simp [applyTickInput, h]
    unfold runSession
    rw [happ]
    simp [ih]

/-- Clearing the registry entry of a session id held at most once removes
it entirely. -/
theorem clearIntervalList_not_mem (sessionId : String) (l : List String)
    (hne : sessionId ≠ "") (hc : l.count sessionId ≤ 1) (hm : sessionId ∈ l) :
    sessionId ∉ clearIntervalList sessionId l := by
  unfold clearIntervalList
  rw [if_pos ⟨hne, hm⟩]
  intro hmem
  have h1 : l.count sessionId = 1 :=
    Nat.le_antisymm hc (List.count_pos_iff.mpr hm)
  have h2 : (l.erase sessionId).count sessionId = 0 := by
    rw [List.count_erase_self, h1]
  exact (List.count_eq_zero.mp h2) hmem

/-- One scheduled event either does nothing observable (no callback,
registry unchanged) or fires one callback from a state holding the handle
and clears the registry entry. -/
theorem applyTickInput_shape (c : CryptoEnv) (b : BeaconEnv)
    (x : ReclaimProofRequest) (st : SessionMutState) (i : TickInput) :
    ((applyTickInput c b x st i).2 = none
      ∧ (applyTickInput c b x st i).1.intervals = st.intervals)
    ∨ ((applyTickInput c b x st i).2.isSome
      ∧ x.sessionId ∈ st.intervals
      ∧ (applyTickInput c b x st i).1.intervals
          = clearIntervalList x.sessionId st.intervals) := by
  cases i with
  | poll now f =>
    by_cases hmem : x.sessionId ∈ st.intervals
    · simp only [applyTickInput, if_pos hmem]
      rcases sessionTick_shape c b x st now f with ⟨hev, hint⟩ | ⟨hev, hint⟩
      · left
        exact ⟨hev, hint⟩
      · right
        exact ⟨hev, hmem, hint⟩
    · left
      simp [applyTickInput, hmem]
  | endingTask =>
    by_cases hmem : x.sessionId ∈ st.intervals
    · right
      simp [applyTickInput, hmem, clearIntervalState]
    · left
      simp [applyTickInput, hmem]

/-- Over any sequence of scheduled events, at most one callback fires, and
if one fired the registry entry is gone at the end. -/
theorem runSession_exactly_once (c : CryptoEnv) (b : BeaconEnv)
    (x : ReclaimProofRequest) (hne : x.sessionId ≠ "") :
    ∀ (inputs : List TickInput) (st : SessionMutState),
      st.intervals.count x.sessionId ≤ 1 →
      ((runSession c b x st inputs).2.length ≤ 1
        ∧ ((runSession c b x st inputs).2 ≠ [] →
            x.sessionId ∉ (runSession c b x st inputs).1.intervals)) := by
  intro inputs
  induction inputs with
  | nil =>
    intro st hc
    exact ⟨by simp [runSession], fun h => absurd rfl h⟩
  | cons i rest ih =>
    intro st hc
    rcases applyTickInput_shape c b x st i with ⟨hev, hint⟩ | ⟨hev, hmem, hint⟩
    · have hrec := ih (applyTickInput c b x st i).1 (by rw [hint]; exact hc)
      unfold runSession
      rw [hev]
      simpa using hrec
    · obtain ⟨e, he⟩ := Option.isSome_iff_exists.mp hev
      have hnotmem : x.sessionId ∉ (applyTickInput c b x st i).1.intervals := by
        rw [hint]
        exact clearIntervalList_not_mem _ _ hne hc hmem
      have hrest := runSession_inactive c b x _ hnotmem rest
      unfold runSession
      rw [he, hrest]
      exact ⟨by simp, fun _ => hnotmem⟩

/-- Running a concatenation of event sequences runs them in order from the
intermediate state, concatenating the callback lists. -/
theorem runSession_append (c : CryptoEnv) (b : BeaconEnv)
    (x : ReclaimProofRequest) :
    ∀ (l1 l2 : List TickInput) (st : SessionMutState),
      runSession c b x st (l1 ++ l2)
        = ((runSession c b x (runSession c b x st l1).1 l2).1,
           (runSession c b x st l1).2
             ++ (runSession c b x (runSession c b x st l1).1 l2).2) := by
  intro l1
  induction l1 with
  | nil =>
    intro l2 st
    simp [runSession]
  | cons i rest ih =>
    intro l2 st
    simp only [List.cons_append, runSession, List.append_eq]
    rw [ih]
    simp [List.append_assoc]

/-- The only error getAppCallbackUrl raises is GetAppCallbackUrlError. -/
theorem getAppCallbackUrl_error_shape (x : ReclaimProofRequest) (e : RError)
    (h : getAppCallbackUrl x = .error e) :
    e = .getAppCallbackUrlError "Error getting app callback url" := by
  unfold getAppCallbackUrl at h
  split at h
  · injection h with h1
    exact h1.symm
  · exact Except.noConfusion h

/-- A tick that fetched a session payload with a non-failure status resets
the failure timer to unset and never raises ProviderFailedError. -/
theorem sessionTick_nonfailure (c : CryptoEnv) (b : BeaconEnv)
    (x : ReclaimProofRequest) (st : SessionMutState) (now : Nat) (sess : SessionData)
    (hok : sess.statusV2 ≠ "PROOF_GENERATION_FAILED") :
    (sessionTick c b x st now (.success ⟨some sess⟩)).1.lastFailureTime = none
    ∧ isProviderFailedEvent (sessionTick c b x st now (.success ⟨some sess⟩)).2 = false := by
  cases hcb : getAppCallbackUrl x with
  | error e =>
    have he := getAppCallbackUrl_error_shape x e hcb
    subst he
    unfold sessionTick sessionTickBody
    simp [hok, hcb, clearIntervalState, isProviderFailedEvent]
  | ok url =>
    by_cases hdef : url = DEFAULT_RECLAIM_CALLBACK_URL ++ x.sessionId
    · cases hpr : sess.proofs with
      | none =>
        unfold sessionTick sessionTickBody
        simp [hok, hcb, hdef, hpr, isProviderFailedEvent]
      | some ps =>
        cases ps with
        | nil =>
          unfold sessionTick sessionTickBody
          simp [hok, hcb, hdef, hpr, isProviderFailedEvent]
        | cons p ps2 =>
          cases hv : verifyProofList c b (p :: ps2) with
          | error e =>
            have he := verifyProofList_error_shape c b (p :: ps2) e hv
            subst he
            unfold sessionTick sessionTickBody
            simp [hok, hcb, hdef, hpr, hv, clearIntervalState, isProviderFailedEvent]
          | ok verified =>
            cases verified with
            | false =>
              unfold sessionTick sessionTickBody
              simp [hok, hcb, hdef, hpr, hv, clearIntervalState, isProviderFailedEvent]
            | true =>
              unfold sessionTick sessionTickBody
              simp only [hok, hcb, hdef, hpr, hv]
              simp [hok, clearIntervalState]
              split <;> rfl
    · by_cases hsub : sess.statusV2 = "PROOF_SUBMISSION_FAILED"
      · unfold sessionTick sessionTickBody
        simp [hok, hcb, hdef, hsub, clearIntervalState, isProviderFailedEvent]
      · by_cases hsubd : sess.statusV2 = "PROOF_SUBMITTED"
        · unfold sessionTick sessionTickBody
          simp [hok, hcb, hdef, hsub, hsubd, clearIntervalState, isProviderFailedEvent]
        · unfold sessionTick sessionTickBody
          simp [hok, hcb, hdef, hsub, hsubd, isProviderFailedEvent]

/-- C4 counterexample to the claim as stated: with the first consecutive
failure observed at time 1000 ms, a failure tick at time 31000 ms transitions
the session to failed with ProviderFailedError although the elapsed time,
exactly 30000 ms, does not exceed the 30-second threshold (the code compares
with greater-or-equal, not strictly-greater). -/
theorem C4_failure_timeout_counterexample :
    (sessionTick cW bW xW
        { lastFailureTime := some 1000, intervals := ["sid"] } 31000
        (.success { session := some { statusV2 := "PROOF_GENERATION_FAILED", proofs := none } })).2
      = some (.errorCallback (.providerFailed "Proof generation failed - timeout reached"))
    ∧ ¬((31000 : Nat) - 1000 > 30000) := by
  constructor
  · rfl
  · decide

/-- C4 (amended): failure-timeout policy.  On a failure tick with no timer
set, the tick records the current time and keeps polling (state otherwise
unchanged, no callback).  On a failure tick with the timer set at t0, the
session transitions to failed with ProviderFailedError exactly when the
elapsed time now - t0 reaches or exceeds the 30000 ms threshold; below the
threshold the tick keeps polling and keeps the first-failure time t0.  Any
tick observing a session payload with a non-failure status resets the
failure timer to unset and never raises ProviderFailedError, so a single
transient failure tick followed by a non-failure tick never triggers the
timeout. -/
theorem C4_failure_timeout (c : CryptoEnv) (b : BeaconEnv) (x : ReclaimProofRequest)
    (st st2 : SessionMutState) (now now2 t0 : Nat) (sess sess2 : SessionData)
    (hfail : sess.statusV2 = "PROOF_GENERATION_FAILED")
    (hok : sess2.statusV2 ≠ "PROOF_GENERATION_FAILED") :
    (st.lastFailureTime = none →
      sessionTick c b x st now (.success { session := some sess })
        = ({ st with lastFailureTime := some now }, none))
    ∧ (st.lastFailureTime = some t0 →
      ((sessionTick c b x st now (.success { session := some sess })).2
          = some (.errorCallback (.providerFailed "Proof generation failed - timeout reached"))
        ↔ FAILURE_TIMEOUT ≤ now - t0))
    ∧ (st.lastFailureTime = some t0 → now - t0 < FAILURE_TIMEOUT →
      sessionTick c b x st now (.success { session := some sess }) = (st, none))
    ∧ ((sessionTick c b x st2 now2 (.success { session := some sess2 })).1.lastFailureTime
        = none)
    ∧ (isProviderFailedEvent
        (sessionTick c b x st2 now2 (.success { session := some sess2 })).2 = false) := by
  refine ⟨?_, ?_, ?_, (sessionTick_nonfailure c b x st2 now2 sess2 hok).1,
    (sessionTick_nonfailure c b x st2 now2 sess2 hok).2⟩
  · intro hlast
    unfold sessionTick sessionTickBody
    simp [hfail, hlast]
  · intro hlast
    unfold sessionTick sessionTickBody
    by_cases hto : FAILURE_TIMEOUT ≤ now - t0
    · simp [hfail, hlast, hto]
    · simp [hfail, hlast, hto]
  · intro hlast hlt
    have hto : ¬(FAILURE_TIMEOUT ≤ now - t0) := by omega
    unfold sessionTick sessionTickBody
    simp [hfail, hlast, hto]

/-- Witness for C4: concrete ticks.  A first failure tick at 5000 ms records
the time and keeps polling; from a failure first observed at 2000 ms, a
failure tick at 32000 ms (elapsed exactly 30000 ms) delivers
ProviderFailedError; a failure tick at 5000 ms (elapsed 3000 ms) keeps
polling unchanged; a non-failure tick resets the timer and is never a
provider failure. -/
theorem C4_failure_timeout_witness :
    sessionTick cW bW xW { lastFailureTime := none, intervals := ["sid"] } 5000
        (.success { session := some { statusV2 := "PROOF_GENERATION_FAILED", proofs := none } })
      = ({ lastFailureTime := some 5000, intervals := ["sid"] }, none)
    ∧ (sessionTick cW bW xW { lastFailureTime := some 2000, intervals := ["sid"] } 32000
        (.success { session := some { statusV2 := "PROOF_GENERATION_FAILED", proofs := none } })).2
      = some (.errorCallback (.providerFailed "Proof generation failed - timeout reached"))
    ∧ sessionTick cW bW xW { lastFailureTime := some 2000, intervals := ["sid"] } 5000
        (.success { session := some { statusV2 := "PROOF_GENERATION_FAILED", proofs := none } })
      = ({ lastFailureTime := some 2000, intervals := ["sid"] }, none)
    ∧ (sessionTick cW bW xW { lastFailureTime := some 2000, intervals := ["sid"] } 8000
        (.success { session := some { statusV2 := "PROOF_GENERATION_STARTED", proofs := none } })).1.lastFailureTime
      = none
    ∧ isProviderFailedEvent
        (sessionTick cW bW xW { lastFailureTime := some 2000, intervals := ["sid"] } 8000
          (.success { session := some { statusV2 := "PROOF_GENERATION_STARTED", proofs := none } })).2
      = false := by
  refine ⟨?_, ?_, ?_, ?_, ?_⟩
  · exact (C4_failure_timeout cW bW xW
      { lastFailureTime := none, intervals := ["sid"] }
      { lastFailureTime := some 2000, intervals := ["sid"] } 5000 8000 0
      { statusV2 := "PROOF_GENERATION_FAILED", proofs := none }
      { statusV2 := "PROOF_GENERATION_STARTED", proofs := none }
      rfl (by decide)).1 rfl
  · exact ((C4_failure_timeout cW bW xW
      { lastFailureTime := some 2000, intervals := ["sid"] }
      { lastFailureTime := some 2000, intervals := ["sid"] } 32000 8000 2000
      { statusV2 := "PROOF_GENERATION_FAILED", proofs := none }
      { statusV2 := "PROOF_GENERATION_STARTED", proofs := none }
      rfl (by decide)).2.1 rfl).mpr (by decide)
  · exact (C4_failure_timeout cW bW xW
      { lastFailureTime := some 2000, intervals := ["sid"] }
      { lastFailureTime := some 2000, intervals := ["sid"] } 5000 8000 2000
      { statusV2 := "PROOF_GENERATION_FAILED", proofs := none }
      { statusV2 := "PROOF_GENERATION_STARTED", proofs := none }
      rfl (by decide)).2.2.1 rfl (by decide)
  · exact (C4_failure_timeout cW bW xW
      { lastFailureTime := some 2000, intervals := ["sid"] }
      { lastFailureTime := some 2000, intervals := ["sid"] } 5000 8000 2000
      { statusV2 := "PROOF_GENERATION_FAILED", proofs := none }
      { statusV2 := "PROOF_GENERATION_STARTED", proofs := none }
      rfl (by decide)).2.2.2.1
  · exact (C4_failure_timeout cW bW xW
      { lastFailureTime := some 2000, intervals := ["sid"] }
      { lastFailureTime := some 2000, intervals := ["sid"] } 5000 8000 2000
      { statusV2 := "PROOF_GENERATION_FAILED", proofs := none }
      { statusV2 := "PROOF_GENERATION_STARTED", proofs := none }
      rfl (by decide)).2.2.2.2

/-- C5: exactly-once terminal delivery.  Starting from a state whose
registry holds the session id at most once (what startSession establishes),
any sequence of scheduled events fires at most one callback; if the
sequence delivered a terminal outcome then exactly one callback fired, the
polling handle is no longer in the registry, and extending the sequence
with further events fires nothing more. -/
theorem C5_exactly_once_terminal (c : CryptoEnv) (b : BeaconEnv)
    (x : ReclaimProofRequest) (st : SessionMutState)
    (inputs more : List TickInput)
    (hne : x.sessionId ≠ "")
    (hcount : st.intervals.count x.sessionId ≤ 1) :
    (runSession c b x st inputs).2.length ≤ 1
    ∧ ((runSession c b x st inputs).2 ≠ [] →
        (runSession c b x st inputs).2.length = 1
        ∧ x.sessionId ∉ (runSession c b x st inputs).1.intervals
        ∧ (runSession c b x st (inputs ++ more)).2 = (runSession c b x st inputs).2) := by
  obtain ⟨hlen, hterm⟩ := runSession_exactly_once c b x hne inputs st hcount
  refine ⟨hlen, fun hnonempty => ⟨?_, hterm hnonempty, ?_⟩⟩
  · have hpos : 0 < (runSession c b x st inputs).2.length :=
      List.length_pos.mpr hnonempty
    omega
  · rw [runSession_append]
    rw [runSession_inactive c b x _ (hterm hnonempty) more]
    simp

/-- Witness for C5: a custom-callback session delivered PROOF_SUBMITTED on
the first tick; the run fires one callback, clears the handle, and a later
tick does nothing. -/
theorem C5_exactly_once_terminal_witness :
    (runSession cW bW xCustomW { lastFailureTime := none, intervals := ["sid"] }
        [.poll 3000 (.success { session := some { statusV2 := "PROOF_SUBMITTED", proofs := none } })]).2.length ≤ 1
    ∧ ((runSession cW bW xCustomW { lastFailureTime := none, intervals := ["sid"] }
        [.poll 3000 (.success { session := some { statusV2 := "PROOF_SUBMITTED", proofs := none } })]).2 ≠ [] →
        (runSession cW bW xCustomW { lastFailureTime := none, intervals := ["sid"] }
          [.poll 3000 (.success { session := some { statusV2 := "PROOF_SUBMITTED", proofs := none } })]).2.length = 1
        ∧ "sid" ∉ (runSession cW bW xCustomW { lastFailureTime := none, intervals := ["sid"] }
          [.poll 3000 (.success { session := some { statusV2 := "PROOF_SUBMITTED", proofs := none } })]).1.intervals
        ∧ (runSession cW bW xCustomW { lastFailureTime := none, intervals := ["sid"] }
          ([.poll 3000 (.success { session := some { statusV2 := "PROOF_SUBMITTED", proofs := none } })]
            ++ [.poll 6000 (.success { session := some { statusV2 := "PROOF_SUBMITTED", proofs := none } })])).2
          = (runSession cW bW xCustomW { lastFailureTime := none, intervals := ["sid"] }
              [.poll 3000 (.success { session := some { statusV2 := "PROOF_SUBMITTED", proofs := none } })]).2) :=
  C5_exactly_once_terminal cW bW xCustomW
    { lastFailureTime := none, intervals := ["sid"] }
    [.poll 3000 (.success { session := some { statusV2 := "PROOF_SUBMITTED", proofs := none } })]
    [.poll 6000 (.success { session := some { statusV2 := "PROOF_SUBMITTED", proofs := none } })]
    (by decide) (by decide)

end ReclaimSDK
